import Mathlib

/-!
Verification of `src/wasm-app/src/lib.rs` (SquareSpheres/squarespheres-platform).

The module exports three pure functions over byte slices and a start-up
hook that logs two lines to the host console.  Bytes are modelled as
`Fin 256`, byte slices and vectors as `List Byte`, Rust `String` as Lean
`String`.  `main` is modelled by the trace of strings it passes to
`console::log_1`, in call order.
-/

namespace WasmApp

/-- A Rust `u8`. -/
abbrev Byte := Fin 256

/-- Embeds `compress_chunk` (lib.rs lines 4-8): `chunk.to_vec()`, a copy of
the input slice. -/
def compress_chunk (chunk : List Byte) : List Byte :=
  chunk

/-- Embeds `decompress_chunk` (lib.rs lines 11-15): `chunk.to_vec()`, a copy
of the input slice. -/
def decompress_chunk (chunk : List Byte) : List Byte :=
  chunk

/-- Embeds `hash_chunk` (lib.rs lines 18-22): ignores its argument and
returns `"dummy_hash_123".to_string()`. -/
def hash_chunk (_chunk : List Byte) : String :=
  "dummy_hash_123"

/-- Embeds the `#[wasm_bindgen(start)]` hook `main` (lib.rs lines 25-30) as
the ordered trace of strings it passes to `web_sys::console::log_1`. -/
def main_console_trace : List String :=
  ["🚀 WASM module loaded and initialized!",
   "📦 Available functions: compress_chunk, decompress_chunk, hash_chunk"]

end WasmApp

namespace WasmApp

/-- C1: for every byte sequence `chunk`, `compress_chunk chunk` equals
`chunk`; the function is the identity on its input. -/
theorem compress_chunk_id (chunk : List Byte) :
    compress_chunk chunk = chunk := rfl

/-- C2: for every byte sequence `chunk`, `decompress_chunk chunk` equals
`chunk`; the function is the identity on its input. -/
theorem decompress_chunk_id (chunk : List Byte) :
    decompress_chunk chunk = chunk := rfl

/-- C3: for every pair of byte sequences `x` and `y`,
`hash_chunk x = hash_chunk y`; the function returns one constant string and
ignores its input entirely. -/
theorem hash_chunk_const (x y : List Byte) :
    hash_chunk x = hash_chunk y := rfl

/-- C4: for every byte sequence `x`, the round trip
`decompress_chunk (compress_chunk x)` equals `x`. -/
theorem compress_decompress_roundtrip (x : List Byte) :
    decompress_chunk (compress_chunk x) = x := rfl

/-- C5: none of the three exported functions can fail: on every input each
one is total and produces a plain value (a byte sequence or a string), with
no error indication; no error branch exists in any of them. -/
theorem exported_functions_total (chunk : List Byte) :
    (∃ out : List Byte, compress_chunk chunk = out) ∧
    (∃ out : List Byte, decompress_chunk chunk = out) ∧
    (∃ s : String, hash_chunk chunk = s) :=
  ⟨⟨compress_chunk chunk, rfl⟩, ⟨decompress_chunk chunk, rfl⟩,
   ⟨hash_chunk chunk, rfl⟩⟩

/-- C6: on instantiation the startup hook `main` writes exactly two fixed
log lines to the host console, in a fixed order matching the source, and
its effect trace contains nothing else. -/
theorem main_logs_two_fixed_lines :
    main_console_trace =
      ["🚀 WASM module loaded and initialized!",
       "📦 Available functions: compress_chunk, decompress_chunk, hash_chunk"] ∧
    main_console_trace.length = 2 := ⟨rfl, rfl⟩

/-- C7: `hash_chunk` returns a string that is either empty or a hardcoded
constant, and the result is the same fixed string for every input. -/
theorem hash_chunk_empty_or_const (x y : List Byte) :
    (hash_chunk x = "" ∨ hash_chunk x = "dummy_hash_123") ∧
    hash_chunk x = hash_chunk y :=
  ⟨Or.inr rfl, rfl⟩

/-- C8: for every input, `hash_chunk` returns exactly the non-empty
14-character string "dummy_hash_123"; it never returns the empty string. -/
theorem hash_chunk_exact_value (x : List Byte) :
    hash_chunk x = "dummy_hash_123" ∧
    (hash_chunk x).length = 14 ∧
    hash_chunk x ≠ "" :=
  ⟨rfl, rfl, by unfold hash_chunk; decide⟩

/-- C9: each of the three exported functions is deterministic: two calls on
equal inputs return equal outputs. -/
theorem exported_functions_deterministic (x y : List Byte) (h : x = y) :
    compress_chunk x = compress_chunk y ∧
    decompress_chunk x = decompress_chunk y ∧
    hash_chunk x = hash_chunk y := by
  subst h; exact ⟨rfl, rfl, rfl⟩

/-- Witness for C9 at the concrete input `[0]`. -/
theorem exported_functions_deterministic_witness :
    compress_chunk [(0 : Byte)] = compress_chunk [(0 : Byte)] ∧
    decompress_chunk [(0 : Byte)] = decompress_chunk [(0 : Byte)] ∧
    hash_chunk [(0 : Byte)] = hash_chunk [(0 : Byte)] :=
  exported_functions_deterministic [(0 : Byte)] [(0 : Byte)] rfl

/-- C10: for every byte sequence `chunk`, the length of
`compress_chunk chunk` equals the length of `chunk`. -/
theorem compress_chunk_length (chunk : List Byte) :
    (compress_chunk chunk).length = chunk.length := rfl

end WasmApp
